import Mathlib

set_option maxRecDepth 8192

/-!
Verification of the Problem-Finder source aggregation and classification
pipeline.  Texts are modelled as `List Char`; JavaScript string operations
(`toLowerCase`, `includes`, `split`) are embedded as functions on `List Char`;
JavaScript numbers appearing in the confidence / score arithmetic are
modelled as exact rationals (`ℚ`), and integer counters as `ℕ` / `ℤ`.
-/

/-- JS `String.prototype.toLowerCase` (the source only feeds ASCII data). -/
def jsToLower (s : List Char) : List Char := s.map Char.toLower

/-- JS `text.includes(pat)`: `pat` occurs as a contiguous substring of `text`. -/
def jsIncludes (text pat : List Char) : Bool := decide (pat <:+: text)

/-- JS `text.split(sep)` for a single-character separator: empty pieces are
kept, so the number of pieces is always `count sep + 1`. -/
def jsSplit (sep : Char) : List Char → List (List Char)
  | [] => [[]]
  | c :: rest =>
    if c = sep then [] :: jsSplit sep rest
    else
      match jsSplit sep rest with
      | [] => [[c]]
      | w :: ws => (c :: w) :: ws

/-- The apostrophe character, used inside several source phrase literals. -/
def apos : Char := Char.ofNat 39

/-! ## Rule-based classifier (src `rule-base-classification.ts`) -/

/-- The six category values returned by `categorizePost`. -/
inductive Category where
  | business
  | technology
  | finance
  | social
  | education
  | general
deriving DecidableEq, Repr

/-- `realProblemIndicators` from `detectRealProblem`. -/
def realProblemIndicators : List (List Char) :=
  [ "i wish there was".data,
    "wish there was an app".data,
    "wish there was a tool".data,
    "wish there was a service".data,
    "there should be".data,
    "it would be great if".data,
    "hard to find".data,
    "difficult to find".data,
    "impossible to find".data,
    "no good way to".data,
    "no easy way to".data,
    "time consuming".data,
    "time-consuming".data,
    "takes forever to".data,
    "such a pain to".data,
    "hate having to".data,
    "frustrated with".data,
    "annoying that".data,
    "why isn".data ++ [apos] ++ "t there".data,
    "someone should make".data,
    "someone should build".data,
    "would pay for".data,
    "willing to pay".data,
    "need a solution".data,
    "looking for a solution".data ]

/-- `notRealProblemIndicators` from `detectRealProblem`. -/
def notRealProblemIndicators : List (List Char) :=
  [ "help me with my homework".data,
    "do my assignment".data,
    "help me move".data,
    "give me a ride".data,
    "lend me money".data,
    "my ex".data,
    "my crush".data,
    "dating advice".data,
    "relationship advice".data,
    "weather".data,
    "it".data ++ [apos] ++ "s raining".data,
    "traffic".data,
    "my parents".data,
    "family drama".data,
    "roommate".data,
    "help me cheat".data,
    "write my essay".data,
    "do my project for me".data ]

/-- `generalProblemWords` from `detectRealProblem`. -/
def generalProblemWords : List (List Char) :=
  [ "problem".data, "issue".data, "struggle".data, "challenge".data,
    "need help".data ]

/-- `detectRealProblem(text)`. -/
def detectRealProblem (text : List Char) : Bool :=
  let hasRealProblemIndicators :=
    realProblemIndicators.any (fun indicator => jsIncludes text indicator)
  let hasNonProblemIndicators :=
    notRealProblemIndicators.any (fun indicator => jsIncludes text indicator)
  if hasNonProblemIndicators then false
  else if hasRealProblemIndicators then true
  else
    let hasGeneralProblemWords :=
      generalProblemWords.any (fun word => jsIncludes text word)
    let wordCount := (jsSplit ' ' text).length
    hasGeneralProblemWords && decide (wordCount > 50)

/-- `businessKeywords` from `categorizePost`. -/
def businessKeywords : List (List Char) :=
  [ "startup".data, "business".data, "entrepreneur".data, "company".data,
    "revenue".data, "marketing".data, "sales".data, "investment".data,
    "funding".data, "client".data, "customer".data, "profit".data,
    "launch".data, "product".data, "service".data, "market".data,
    "competition".data, "strategy".data ]

/-- `educationKeywords` from `categorizePost`. -/
def educationKeywords : List (List Char) :=
  [ "homework".data, "assignment".data, "project".data, "exam".data,
    "study".data, "research".data, "course".data, "class".data,
    "thesis".data, "lecture".data, "student".data, "learning".data,
    "school".data, "college".data, "university".data, "professor".data,
    "grade".data, "academic".data ]

/-- `technologyKeywords` from `categorizePost`. -/
def technologyKeywords : List (List Char) :=
  [ "app".data, "software".data, "tool".data, "coding".data,
    "programming".data, "development".data, "platform".data,
    "automation".data, "ai".data, "machine learning".data, "ml".data,
    "website".data, "system".data, "tech".data, "algorithm".data,
    "database".data, "api".data, "mobile".data, "web".data,
    "computer".data ]

/-- `financeKeywords` from `categorizePost`. -/
def financeKeywords : List (List Char) :=
  [ "money".data, "budget".data, "saving".data, "savings".data, "debt".data,
    "investment".data, "finance".data, "loan".data, "banking".data,
    "cryptocurrency".data, "crypto".data, "economy".data, "financial".data,
    "expense".data, "income".data, "tax".data, "insurance".data,
    "retirement".data ]

/-- `socialKeywords` from `categorizePost`. -/
def socialKeywords : List (List Char) :=
  [ "community".data, "social".data, "dating".data, "relationship".data,
    "friend".data, "network".data, "communication".data, "meeting".data,
    "group".data, "team".data, "collaboration".data, "sharing".data ]

/-- Number of `businessKeywords` literally occurring in `text`. -/
def businessCount (text : List Char) : ℕ :=
  (businessKeywords.filter (fun keyword => jsIncludes text keyword)).length

/-- Number of `educationKeywords` literally occurring in `text`. -/
def educationCount (text : List Char) : ℕ :=
  (educationKeywords.filter (fun keyword => jsIncludes text keyword)).length

/-- Number of `technologyKeywords` literally occurring in `text`. -/
def technologyCount (text : List Char) : ℕ :=
  (technologyKeywords.filter (fun keyword => jsIncludes text keyword)).length

/-- Number of `financeKeywords` literally occurring in `text`. -/
def financeCount (text : List Char) : ℕ :=
  (financeKeywords.filter (fun keyword => jsIncludes text keyword)).length

/-- Number of `socialKeywords` literally occurring in `text`. -/
def socialCount (text : List Char) : ℕ :=
  (socialKeywords.filter (fun keyword => jsIncludes text keyword)).length

/-- The origin groups special-cased to `business` in `categorizePost`. -/
def businessSubreddits : List (List Char) :=
  [ "entrepreneur".data, "smallbusiness".data, "startup".data,
    "business".data ]

/-- The origin groups special-cased to `education` in `categorizePost`. -/
def educationSubreddits : List (List Char) :=
  [ "college".data, "university".data, "student".data,
    "learnprogramming".data, "studytips".data ]

/-- The origin groups special-cased to `technology` in `categorizePost`. -/
def technologySubreddits : List (List Char) :=
  [ "programming".data, "webdev".data, "technology".data, "coding".data ]

/-- The origin groups special-cased to `finance` in `categorizePost`. -/
def financeSubreddits : List (List Char) :=
  [ "personalfinance".data, "investing".data, "financialindependence".data ]

/-- `categorizePost(text, subreddit)`: origin-group short-circuits first,
otherwise the `Object.entries` list (insertion order business, education,
technology, finance, social) is scanned with `find` for the first entry whose
count equals the maximum. -/
def categorizePost (text subreddit : List Char) : Category :=
  let subredditLower := jsToLower subreddit
  if subredditLower ∈ businessSubreddits then Category.business
  else if subredditLower ∈ educationSubreddits then Category.education
  else if subredditLower ∈ technologySubreddits then Category.technology
  else if subredditLower ∈ financeSubreddits then Category.finance
  else
    let entries : List (Category × ℕ) :=
      [ (Category.business, businessCount text),
        (Category.education, educationCount text),
        (Category.technology, technologyCount text),
        (Category.finance, financeCount text),
        (Category.social, socialCount text) ]
    let maxCount := (entries.map Prod.snd).foldr max 0
    if maxCount = 0 then Category.general
    else
      match entries.find? (fun e => e.2 == maxCount) with
      | some e => e.1
      | none => Category.general

/-- `strongIndicators` from `calculateConfidence`. -/
def strongIndicators : List (List Char) :=
  [ "i wish there was an app".data,
    "someone should make".data,
    "would pay for".data,
    "no good solution".data,
    "such a pain to".data ]

/-- The question-mark condition on lines 212-214 of the classifier:
`text.includes(questionMark) && text.split(questionMark).length > 2`. -/
def questionMarkCondition (text : List Char) : Bool :=
  jsIncludes text ("?".data) && decide ((jsSplit '?' text).length > 2)

/-- `calculateConfidence(text, isRealProblem)`. -/
def calculateConfidence (text : List Char) (isRealProblem : Bool) : ℚ :=
  let confidence0 : ℚ := if isRealProblem then 0.5 else 0.2
  let wordCount := (jsSplit ' ' text).length
  let confidence1 : ℚ :=
    if wordCount > 100 then confidence0 + 0.2
    else if wordCount > 50 then confidence0 + 0.1
    else if wordCount < 10 then confidence0 - 0.2
    else confidence0
  let hasStrongIndicator :=
    strongIndicators.any (fun indicator => jsIncludes text indicator)
  let confidence2 : ℚ :=
    if hasStrongIndicator then confidence1 + 0.2 else confidence1
  let confidence3 : ℚ :=
    if questionMarkCondition text then confidence2 - 0.1 else confidence2
  max 0 (min 1 confidence3)

/-- `generateReasoning(isRealProblem, category)`. -/
def generateReasoning (isRealProblem : Bool) (category : Category) :
    List Char :=
  if !isRealProblem then
    ("Classified as not a real problem - appears to be a personal request, complaint, or non-solvable issue").data
  else
    let categoryReason : List Char :=
      match category with
      | Category.business =>
        ("Contains business-related keywords and appears to be an entrepreneurial opportunity").data
      | Category.education =>
        ("Related to learning, studying, or academic challenges").data
      | Category.technology =>
        ("Involves software, apps, coding, or technical solutions").data
      | Category.finance =>
        ("Deals with money, budgeting, or financial management").data
      | Category.social =>
        ("Focuses on community, relationships, or social interactions").data
      | Category.general =>
        ("Appears to be a real problem but doesn").data ++ [apos] ++
          ("t fit into specific categories").data
    let categoryName : List Char :=
      match category with
      | Category.business => "business".data
      | Category.education => "education".data
      | Category.technology => "technology".data
      | Category.finance => "finance".data
      | Category.social => "social".data
      | Category.general => "general".data
    ("Classified as a real ").data ++ categoryName ++ (" problem. ").data ++
      categoryReason

/-- `allKeywords` from `extractKeywords`. -/
def allKeywords : List (List Char) :=
  [ "i wish there was".data, "wish there was".data, "there should be".data,
    "hard to find".data, "difficult to find".data, "time consuming".data,
    "frustrated with".data, "annoying that".data, "someone should make".data,
    "would pay for".data, "need a solution".data,
    "startup".data, "business".data, "app".data, "software".data,
    "money".data, "budget".data, "study".data, "homework".data,
    "coding".data, "programming".data, "community".data, "social".data,
    "tool".data ]

/-- `extractKeywords(text)`. -/
def extractKeywords (text : List Char) : List (List Char) :=
  allKeywords.filter (fun keyword => jsIncludes text keyword)

/-- The `RedditPost` shape from `types/index.ts` (the fields the pipeline
reads). -/
structure RedditPost where
  id : List Char
  title : List Char
  selftext : List Char
  url : List Char
  score : ℤ
  num_comments : ℤ
  created_utc : ℚ
  subreddit : List Char

/-- The `ProblemClassification` record. -/
structure ProblemClassification where
  isRealProblem : Bool
  category : Category
  confidence : ℚ
  reasoning : List Char
  keywords : List (List Char)
deriving DecidableEq

/-- `RuleBasedClassifier.classifyPost(post)`. -/
def classifyPost (post : RedditPost) : ProblemClassification :=
  let text := jsToLower (post.title ++ (" ").data ++ post.selftext)
  let isRealProblem := detectRealProblem text
  let category := categorizePost text post.subreddit
  let confidence := calculateConfidence text isRealProblem
  let reasoning := generateReasoning isRealProblem category
  let keywords := extractKeywords text
  { isRealProblem := isRealProblem,
    category := category,
    confidence := confidence,
    reasoning := reasoning,
    keywords := keywords }

/-- Modelled from the spec's words (§4.4b) for comparison with
`categorizePost`: "the category with the strictly highest count wins; ties
are broken by first-declared-category-wins in a fixed enumeration order
(business, education, technology, finance, social); an all-zero tie yields
`general`". -/
def firstMaxCategory (text : List Char) : Category :=
  let bc := businessCount text
  let ec := educationCount text
  let tc := technologyCount text
  let fc := financeCount text
  let sc := socialCount text
  let m := max bc (max ec (max tc (max fc sc)))
  if m = 0 then Category.general
  else if bc = m then Category.business
  else if ec = m then Category.education
  else if tc = m then Category.technology
  else if fc = m then Category.finance
  else Category.social

/-- The end-to-end scenario input of §8: the freelance-invoices post from
origin `Entrepreneur`. -/
def freelancePost : RedditPost :=
  { id := ("abc").data,
    title := ("I wish there was an app to track my freelance invoices, it").data
      ++ [apos] ++ ("s such a pain to do manually").data,
    selftext := [],
    url := [],
    score := 0,
    num_comments := 0,
    created_utc := 0,
    subreddit := ("Entrepreneur").data }

/-- The end-to-end scenario input of §8: the homework request from origin
`College`. -/
def homeworkPost : RedditPost :=
  { id := ("hw1").data,
    title := ("can someone help me with my homework").data,
    selftext := [],
    url := [],
    score := 0,
    num_comments := 0,
    created_utc := 0,
    subreddit := ("College").data }

/-- A post whose text contains both the disqualifier `my ex` and the strong
problem phrase `i wish there was`. -/
def exPost : RedditPost :=
  { id := ("ex1").data,
    title := ("i wish there was a way to avoid my ex").data,
    selftext := [],
    url := [],
    score := 0,
    num_comments := 0,
    created_utc := 0,
    subreddit := ("Entrepreneur").data }

/-! ## Aggregation pipeline (src `app.ts` GET /api/problems, services) -/

/-- The `StackExchangeQuestion` shape from `types/index.ts` (fields the
pipeline reads). -/
structure StackExchangeQuestion where
  question_id : ℕ
  title : List Char
  body : List Char
  link : List Char
  score : ℤ
  view_count : ℤ
  answer_count : ℤ
  creation_date : ℚ
  site : List Char

/-- A `RedditResponse`: the `data.children[].data` post records of one
subreddit fetch (one source-query). -/
structure RedditResponse where
  children : List RedditPost

/-- The pseudo-Reddit post `classifyStackExchangeQuestions` builds to feed a
Stack Exchange question through the Reddit classifier. -/
def pseudoPost (q : StackExchangeQuestion) : RedditPost :=
  { id := (toString q.question_id).data,
    title := q.title,
    selftext := q.body,
    url := q.link,
    score := q.score,
    num_comments := q.answer_count,
    created_utc := q.creation_date,
    subreddit := q.site }

/-- `classifyAndFilterPosts`: the flattened `allPosts` extraction. -/
def allPostsOf (posts : List RedditResponse) : List RedditPost :=
  posts.flatMap (fun response => response.children)

/-- `classifyAndFilterPosts` (useClassifier = true): every flattened post
paired with its classification. -/
def classifiedPostsOf (posts : List RedditResponse) :
    List (RedditPost × ProblemClassification) :=
  (allPostsOf posts).map (fun post => (post, classifyPost post))

/-- The mapped problem shape the `/api/problems` endpoint returns per item
(the fields that filtering, sorting, pagination and the id claims read). -/
structure ProblemItem where
  id : List Char
  title : List Char
  category : Category
  confidence : ℚ
  keywords : List (List Char)
  engagement : ℤ
  hoursAgo : ℤ
deriving DecidableEq

/-- The endpoint's reddit mapping: `id = reddit_${p.id}`, confidence rounded
to two decimals, `engagement = score + num_comments`,
`hoursAgo = round((now - created_utc) / 3600)`. -/
def redditProblemItem (now : ℚ) (p : RedditPost × ProblemClassification) :
    ProblemItem :=
  { id := ("reddit_").data ++ p.1.id,
    title := p.1.title,
    category := p.2.category,
    confidence := ((round (p.2.confidence * 100) : ℤ) : ℚ) / 100,
    keywords := p.2.keywords.take 5,
    engagement := p.1.score + p.1.num_comments,
    hoursAgo := round ((now - p.1.created_utc) / 3600) }

/-- The endpoint's reddit pipeline: classify, keep real problems meeting the
confidence floor, map to the output shape. -/
def redditProblems (responses : List RedditResponse) (minConfidence now : ℚ) :
    List ProblemItem :=
  ((classifiedPostsOf responses).filter
      (fun p => p.2.isRealProblem && decide (minConfidence ≤ p.2.confidence))).map
    (redditProblemItem now)

/-- `classifyStackExchangeQuestions`: each question classified through the
pseudo-post adapter. -/
def classifiedQuestionsOf (questions : List StackExchangeQuestion) :
    List (StackExchangeQuestion × ProblemClassification) :=
  questions.map (fun q => (q, classifyPost (pseudoPost q)))

/-- The endpoint's stack-exchange mapping: `id = se_${q.question_id}`,
`engagement = score + answer_count`. -/
def seProblemItem (now : ℚ) (p : StackExchangeQuestion × ProblemClassification) :
    ProblemItem :=
  { id := ("se_").data ++ (toString p.1.question_id).data,
    title := p.1.title,
    category := p.2.category,
    confidence := ((round (p.2.confidence * 100) : ℤ) : ℚ) / 100,
    keywords := p.2.keywords.take 5,
    engagement := p.1.score + p.1.answer_count,
    hoursAgo := round ((now - p.1.creation_date) / 3600) }

/-- The endpoint's stack-exchange pipeline. -/
def seProblems (questions : List StackExchangeQuestion) (minConfidence now : ℚ) :
    List ProblemItem :=
  ((classifiedQuestionsOf questions).filter
      (fun p => p.2.isRealProblem && decide (minConfidence ≤ p.2.confidence))).map
    (seProblemItem now)

/-- `fetchMultipleStackExchangeSites` over the settled per-site results: a
fulfilled site contributes its questions and its count, a rejected one
contributes nothing and a `0` stat (the `Promise.allSettled` forEach). -/
def fetchMultipleStackExchangeSites
    (results : List (List Char × Except Unit (List StackExchangeQuestion))) :
    List StackExchangeQuestion × List (List Char × ℕ) :=
  (results.flatMap (fun r =>
      match r.2 with
      | Except.ok questions => questions
      | Except.error _ => []),
   results.map (fun r =>
      match r.2 with
      | Except.ok questions => (r.1, questions.length)
      | Except.error _ => (r.1, 0)))

/-- The `sortBy` query parameter values. -/
inductive SortKey where
  | confidence
  | engagement
  | recency

/-- The endpoint's sort comparator: confidence descending (default),
engagement descending, recency = fewest hours ago first. -/
def sortComparator : SortKey → ProblemItem → ProblemItem → Bool
  | SortKey.engagement => fun a b => decide (b.engagement ≤ a.engagement)
  | SortKey.recency => fun a b => decide (a.hoursAgo ≤ b.hoursAgo)
  | SortKey.confidence => fun a b => decide (b.confidence ≤ a.confidence)

/-- Stable insertion used to model `Array.prototype.sort` (V8's sort is
stable). -/
def insertSorted {α : Type} (le : α → α → Bool) (x : α) :
    List α → List α
  | [] => [x]
  | y :: ys => if le x y then x :: y :: ys else y :: insertSorted le x ys

/-- Stable sort used to model `Array.prototype.sort`. -/
def sortProblems {α : Type} (le : α → α → Bool) : List α → List α
  | [] => []
  | x :: xs => insertSorted le x (sortProblems le xs)

/-- The per-source entry of `sourceResults`: item/analyzed counts on success,
an error annotation when the fetch threw. -/
inductive SourceDiag where
  | ok (found analyzed : ℕ)
  | fetchError
deriving DecidableEq

/-- The `pagination` object of the endpoint response. -/
structure Pagination where
  currentPage : ℕ
  totalPages : ℕ
  totalCount : ℕ
  hasNext : Bool
  hasPrev : Bool
  limit : ℕ
deriving DecidableEq

/-- The endpoint response (the fields the claims read). -/
structure ProblemsResponse where
  success : Bool
  problems : List ProblemItem
  pagination : Pagination
  redditDiag : Option SourceDiag
  stackexchangeDiag : Option SourceDiag

/-- The endpoint's category filter: `all` (none) keeps everything. -/
def categoryFilter (category : Option Category) (l : List ProblemItem) :
    List ProblemItem :=
  match category with
  | none => l
  | some c => l.filter (fun p => decide (p.category = c))

/-- What the reddit source block adds to `allProblems`: its mapped problems
when the source is requested and its fetch succeeded, nothing otherwise. -/
def redditContribution (useReddit : Bool)
    (redditFetch : Except Unit (List RedditResponse))
    (minConfidence now : ℚ) : List ProblemItem :=
  if useReddit then
    match redditFetch with
    | Except.ok responses => redditProblems responses minConfidence now
    | Except.error _ => []
  else []

/-- What the stack-exchange source block adds to `allProblems`. -/
def seContribution (useSE : Bool)
    (seFetch : Except Unit (List StackExchangeQuestion))
    (minConfidence now : ℚ) : List ProblemItem :=
  if useSE then
    match seFetch with
    | Except.ok questions => seProblems questions minConfidence now
    | Except.error _ => []
  else []

/-- The filtered, sorted collection the endpoint paginates: concatenated
source contributions, category-filtered, then sorted. -/
def filteredSortedProblems (useReddit useSE : Bool)
    (redditFetch : Except Unit (List RedditResponse))
    (seFetch : Except Unit (List StackExchangeQuestion))
    (category : Option Category) (minConfidence : ℚ) (sortBy : SortKey)
    (now : ℚ) : List ProblemItem :=
  sortProblems (sortComparator sortBy)
    (categoryFilter category
      (redditContribution useReddit redditFetch minConfidence now ++
        seContribution useSE seFetch minConfidence now))

/-- `GET /api/problems`: collect per-source contributions (a fetch failure is
caught and becomes an empty contribution plus an error diagnostic), filter by
category, sort, then paginate; the response is always a success page. -/
def problemsEndpoint (useReddit useSE : Bool)
    (redditFetch : Except Unit (List RedditResponse))
    (seFetch : Except Unit (List StackExchangeQuestion))
    (category : Option Category) (minConfidence : ℚ) (sortBy : SortKey)
    (page limit : ℕ) (now : ℚ) : ProblemsResponse :=
  let redditDiag : Option SourceDiag :=
    if useReddit then
      match redditFetch with
      | Except.ok responses =>
        some (SourceDiag.ok (redditProblems responses minConfidence now).length
          (allPostsOf responses).length)
      | Except.error _ => some SourceDiag.fetchError
    else none
  let seDiag : Option SourceDiag :=
    if useSE then
      match seFetch with
      | Except.ok questions =>
        some (SourceDiag.ok (seProblems questions minConfidence now).length
          questions.length)
      | Except.error _ => some SourceDiag.fetchError
    else none
  let sorted := filteredSortedProblems useReddit useSE redditFetch seFetch
    category minConfidence sortBy now
  let totalCount := sorted.length
  let offset := (page - 1) * limit
  { success := true,
    problems := (sorted.drop offset).take limit,
    pagination :=
      { currentPage := page,
        totalPages := Nat.ceil ((totalCount : ℚ) / (limit : ℚ)),
        totalCount := totalCount,
        hasNext := decide (page * limit < totalCount),
        hasPrev := decide (1 < page),
        limit := limit },
    redditDiag := redditDiag,
    stackexchangeDiag := seDiag }

/-! ## Reddit service (src `services/reddit.ts`, cached variant) -/

/-- `fetchSubredditPosts` as a function of its interactions: the cached
value (if any), the outcome of the fresh fetch, and whether the best-effort
cache write would succeed.  Returns the payload handed to the caller paired
with the cache content after the call (`none` = the write failed and the
cache stays empty). -/
def fetchSubredditPosts (cached : Option RedditResponse)
    (fetchResult : Except Unit RedditResponse) (cacheWriteOk : Bool) :
    Except Unit (RedditResponse × Option RedditResponse) :=
  match cached with
  | some data => Except.ok (data, some data)
  | none =>
    match fetchResult with
    | Except.error e => Except.error e
    | Except.ok data =>
      Except.ok (data, if cacheWriteOk then some data else none)

/-- `calculateRecencyScore(created_utc)` with `Date.now()/1000` passed
explicitly as `now` (epoch seconds). -/
def calculateRecencyScore (now created_utc : ℚ) : ℚ :=
  let age := now - created_utc
  let ageInDays := age / (24 * 60 * 60)
  max 0 (1 - ageInDays / 30)

/-- Two overlapping source-queries whose fetched items share the canonical
post `freelancePost` (id `abc`). -/
def overlapResponse : RedditResponse := { children := [freelancePost] }

/-! ## Theorems -/

theorem jsIncludes_iff (text pat : List Char) :
    jsIncludes text pat = true ↔ pat <:+: text := by
  simp [jsIncludes]

theorem jsSplit_length (sep : Char) (l : List Char) :
    (jsSplit sep l).length = l.count sep + 1 := by
  induction l with
  | nil => simp [jsSplit]
  | cons c rest ih =>
    by_cases h : c = sep
    · simp [jsSplit, h, List.count_cons]
      omega
    · simp only [jsSplit, if_neg h]
      rcases hs : jsSplit sep rest with _ | ⟨w, ws⟩
      · rw [hs] at ih; simp at ih
      · rw [hs] at ih
        simp [List.count_cons, h] at ih ⊢
        omega

theorem singleton_infix_iff {α : Type} (a : α) (l : List α) :
    [a] <:+: l ↔ a ∈ l := by
  constructor
  · intro h
    exact h.subset (List.mem_singleton_self a)
  · intro h
    obtain ⟨s, t, rfl⟩ := List.append_of_mem h
    exact ⟨s, t, by simp⟩

/-- C1: if any disqualifying phrase occurs in the lower-cased title+body,
`classifyPost` reports `isRealProblem = false`, whatever the origin group and
whatever strong-problem phrases also occur. -/
theorem classifyPost_disqualifier_overrides (post : RedditPost)
    (h : ∃ p ∈ notRealProblemIndicators,
        p <:+: jsToLower (post.title ++ (" ").data ++ post.selftext)) :
    (classifyPost post).isRealProblem = false := by
  obtain ⟨p, hp, hinf⟩ := h
  have hany : notRealProblemIndicators.any
      (fun indicator =>
        jsIncludes (jsToLower (post.title ++ (" ").data ++ post.selftext))
          indicator) = true :=
    List.any_eq_true.mpr ⟨p, hp, (jsIncludes_iff _ _).mpr hinf⟩
  show detectRealProblem (jsToLower (post.title ++ (" ").data ++ post.selftext))
      = false
  rw [detectRealProblem]
  simp only [hany, if_true]

/-- C1 witness: the homework scenario from origin `College` and a text
containing both `my ex` and `i wish there was` are both rejected. -/
theorem classifyPost_disqualifier_overrides_witness :
    (classifyPost homeworkPost).isRealProblem = false ∧
    (classifyPost exPost).isRealProblem = false :=
  ⟨classifyPost_disqualifier_overrides homeworkPost (by decide),
   classifyPost_disqualifier_overrides exPost (by decide)⟩

/-- C4 counterexample: a text with exactly two question marks does receive
the question-mark deduction (the code condition `split.length > 2` already
fires at two occurrences), so `calculateConfidence` yields
`0.5 - 0.2 - 0.1 = 0.2` instead of the `0.3` the claim predicts. -/
theorem questionMark_exactly_two_counterexample :
    (("a? b?").data).count '?' = 2 ∧
    questionMarkCondition (("a? b?").data) = true ∧
    calculateConfidence (("a? b?").data) true = 0.2 := by
  refine ⟨by decide, by decide, ?_⟩
  have hword : (jsSplit ' ' (("a? b?").data)).length = 2 := by
    rw [jsSplit_length]; decide
  have hqm : questionMarkCondition (("a? b?").data) = true := by decide
  have hstrong : strongIndicators.any
      (fun indicator => jsIncludes (("a? b?").data) indicator) = false := by
    decide
  simp only [calculateConfidence, hword, hqm, hstrong]
  norm_num

/-- C4 amended: the −0.1 question-mark adjustment is applied iff the text
contains at least two question-mark characters (not "more than two": the
source splits on the question mark, and `pieces > 2` means `count ≥ 2`). -/
theorem questionMark_penalty_iff (text : List Char) :
    questionMarkCondition text = true ↔ 2 ≤ text.count '?' := by
  unfold questionMarkCondition
  rw [Bool.and_eq_true]
  constructor
  · rintro ⟨-, h2⟩
    rw [decide_eq_true_eq, jsSplit_length] at h2
    omega
  · intro h
    refine ⟨?_, by rw [decide_eq_true_eq, jsSplit_length]; omega⟩
    rw [jsIncludes_iff]
    have hm : '?' ∈ text := by
      have : 0 < text.count '?' := by omega
      exact List.count_pos_iff.mp this
    exact (singleton_infix_iff '?' text).mpr hm

/-- C5: for an origin group that is not special-cased, `categorizePost`
returns exactly the spec's first-max rule: strictly highest keyword-set count
wins, ties resolve to the first category in the enumeration order (business,
education, technology, finance, social), and an all-zero tie yields
`general`. -/
theorem categorizePost_first_max (text subreddit : List Char)
    (h : jsToLower subreddit ∉ businessSubreddits ∧
        jsToLower subreddit ∉ educationSubreddits ∧
        jsToLower subreddit ∉ technologySubreddits ∧
        jsToLower subreddit ∉ financeSubreddits) :
    categorizePost text subreddit = firstMaxCategory text := by
  obtain ⟨h1, h2, h3, h4⟩ := h
  unfold categorizePost firstMaxCategory
  simp only [if_neg h1, if_neg h2, if_neg h3, if_neg h4, List.map_cons,
    List.map_nil, List.foldr_cons, List.foldr_nil, Nat.max_zero]
  set bc := businessCount text with hbc
  set ec := educationCount text with hec
  set tc := technologyCount text with htc
  set fc := financeCount text with hfc
  set sc := socialCount text with hsc
  set m := max bc (max ec (max tc (max fc sc))) with hm
  by_cases h0 : m = 0
  · simp [h0]
  · rw [if_neg h0, if_neg h0]
    by_cases hb : bc = m
    · rw [List.find?_cons_of_pos _ (by simpa using hb)]
      simp [hb]
    · rw [List.find?_cons_of_neg _ (by simpa using hb), if_neg hb]
      by_cases he : ec = m
      · rw [List.find?_cons_of_pos _ (by simpa using he)]
        simp [he]
      · rw [List.find?_cons_of_neg _ (by simpa using he), if_neg he]
        by_cases ht : tc = m
        · rw [List.find?_cons_of_pos _ (by simpa using ht)]
          simp [ht]
        · rw [List.find?_cons_of_neg _ (by simpa using ht), if_neg ht]
          by_cases hf : fc = m
          · rw [List.find?_cons_of_pos _ (by simpa using hf)]
            simp [hf]
          · rw [List.find?_cons_of_neg _ (by simpa using hf), if_neg hf]
            have hs : sc = m := by omega
            rw [List.find?_cons_of_pos _ (by simpa using hs)]

/-- C5 witness: origin `askreddit` is not special-cased, and on the text
`startup homework` (a business/education tie) the code agrees with the
first-max rule. -/
theorem categorizePost_first_max_witness :
    (jsToLower (("askreddit").data) ∉ businessSubreddits ∧
        jsToLower (("askreddit").data) ∉ educationSubreddits ∧
        jsToLower (("askreddit").data) ∉ technologySubreddits ∧
        jsToLower (("askreddit").data) ∉ financeSubreddits) ∧
    categorizePost (("startup homework").data) (("askreddit").data) =
      firstMaxCategory (("startup homework").data) :=
  ⟨by decide, categorizePost_first_max (("startup homework").data)
    (("askreddit").data) (by decide)⟩

/-- Shared evaluation: the freelance-invoices post scores confidence exactly
`0.5` (real problem) `+ 0.2` (strong indicator), clamped to `0.7`. -/
theorem freelance_confidence :
    (classifyPost freelancePost).confidence = 0.7 := by
  have hc : (classifyPost freelancePost).confidence =
      calculateConfidence
        (jsToLower (freelancePost.title ++ (" ").data ++ freelancePost.selftext))
        (detectRealProblem
          (jsToLower (freelancePost.title ++ (" ").data ++ freelancePost.selftext))) :=
    rfl
  have hreal : detectRealProblem
      (jsToLower (freelancePost.title ++ (" ").data ++ freelancePost.selftext))
      = true := by decide
  have hword : (jsSplit ' '
      (jsToLower (freelancePost.title ++ (" ").data ++
        freelancePost.selftext))).length = 19 := by
    rw [jsSplit_length]; decide
  have hstrong : strongIndicators.any (fun indicator =>
      jsIncludes
        (jsToLower (freelancePost.title ++ (" ").data ++ freelancePost.selftext))
        indicator) = true := by decide
  have hqm : questionMarkCondition
      (jsToLower (freelancePost.title ++ (" ").data ++ freelancePost.selftext))
      = false := by decide
  rw [hc, hreal]
  simp only [calculateConfidence, hword, hstrong, hqm]
  norm_num

/-- C6: the end-to-end scenario: the freelance-invoices post from origin
`Entrepreneur` is a real problem, categorised `business`, with confidence at
least 0.7 and `i wish there was` among its keywords. -/
theorem freelance_scenario :
    (classifyPost freelancePost).isRealProblem = true ∧
    (classifyPost freelancePost).category = Category.business ∧
    (0.7 : ℚ) ≤ (classifyPost freelancePost).confidence ∧
    ("i wish there was").data ∈ (classifyPost freelancePost).keywords := by
  refine ⟨by decide, by decide, ?_, by decide⟩
  rw [freelance_confidence]

/-- Shared evaluation: the concrete aggregated id list for one overlapping
source-query pair. -/
theorem overlap_ids :
    (redditProblems [overlapResponse, overlapResponse] (0.5 : ℚ) 0).map
      (fun item => item.id) =
      [("reddit_abc").data, ("reddit_abc").data] := by
  have hreal : (classifyPost freelancePost).isRealProblem = true := by decide
  have hle : ((0.5 : ℚ) ≤ (classifyPost freelancePost).confidence) := by
    rw [freelance_confidence]; norm_num
  simp only [redditProblems, classifiedPostsOf, allPostsOf, overlapResponse,
    List.flatMap_cons, List.flatMap_nil, List.singleton_append,
    List.append_nil, List.map_cons, List.map_nil, List.filter_cons,
    List.filter_nil, hreal, hle, Bool.true_and, if_true, ite_true,
    redditProblemItem]
  decide

/-- C2 counterexample: two overlapping source-queries both returning the
canonical post `abc` yield the id `reddit_abc` twice in the aggregated,
filtered output — nothing is collapsed. -/
theorem dedup_counterexample :
    (((redditProblems [overlapResponse, overlapResponse] (0.5 : ℚ) 0).map
      (fun item => item.id)).count (("reddit_abc").data)) = 2 := by
  rw [overlap_ids]
  decide

/-- C2 amended: the aggregated, filtered output is the plain concatenation of
the per-source-query results — an item fetched by k overlapping
source-queries appears k times, first-seen does not win because nothing is
deduplicated. -/
theorem redditProblems_no_dedup (responses : List RedditResponse)
    (minConfidence now : ℚ) :
    redditProblems responses minConfidence now =
      responses.flatMap (fun r => redditProblems [r] minConfidence now) := by
  induction responses with
  | nil => rfl
  | cons r rs ih =>
    simp only [redditProblems, classifiedPostsOf, allPostsOf,
      List.flatMap_cons, List.flatMap_nil, List.append_nil, List.map_append,
      List.filter_append] at ih ⊢
    rw [ih]

/-- `Math.ceil(n / k)` over the rationals agrees with the natural-number
ceiling division `(n + k - 1) / k`. -/
theorem natCeil_cast_div (m k : ℕ) (hk : 1 ≤ k) :
    Nat.ceil ((m : ℚ) / (k : ℚ)) = (m + k - 1) / k := by
  have hk0 : (0 : ℚ) < (k : ℚ) := by exact_mod_cast hk
  rw [← Nat.ceilDiv_eq_add_pred_div]
  refine eq_of_forall_ge_iff fun c => ?_
  rw [Nat.ceil_le, div_le_iff₀ hk0, ceilDiv_le_iff_le_mul hk, mul_comm]
  exact_mod_cast Iff.rfl

/-- C3: pagination is computed from the filtered, sorted collection:
`totalPages = ceil(n / limit)` (also as natural ceiling division),
`hasNext = currentPage * limit < n`, `totalCount = n`, and the returned items
are exactly that collection's slice for the requested page. -/
theorem pagination_after_filter_and_sort (useReddit useSE : Bool)
    (redditFetch : Except Unit (List RedditResponse))
    (seFetch : Except Unit (List StackExchangeQuestion))
    (category : Option Category) (minConfidence : ℚ) (sortBy : SortKey)
    (page limit : ℕ) (now : ℚ) (hlimit : 1 ≤ limit) :
    (problemsEndpoint useReddit useSE redditFetch seFetch category
        minConfidence sortBy page limit now).pagination.totalCount =
      (filteredSortedProblems useReddit useSE redditFetch seFetch category
        minConfidence sortBy now).length ∧
    (problemsEndpoint useReddit useSE redditFetch seFetch category
        minConfidence sortBy page limit now).pagination.totalPages =
      Nat.ceil (((filteredSortedProblems useReddit useSE redditFetch seFetch
        category minConfidence sortBy now).length : ℚ) / (limit : ℚ)) ∧
    (problemsEndpoint useReddit useSE redditFetch seFetch category
        minConfidence sortBy page limit now).pagination.totalPages =
      ((filteredSortedProblems useReddit useSE redditFetch seFetch category
        minConfidence sortBy now).length + limit - 1) / limit ∧
    (problemsEndpoint useReddit useSE redditFetch seFetch category
        minConfidence sortBy page limit now).pagination.hasNext =
      decide (page * limit <
        (filteredSortedProblems useReddit useSE redditFetch seFetch category
          minConfidence sortBy now).length) ∧
    (problemsEndpoint useReddit useSE redditFetch seFetch category
        minConfidence sortBy page limit now).problems =
      ((filteredSortedProblems useReddit useSE redditFetch seFetch category
        minConfidence sortBy now).drop ((page - 1) * limit)).take limit := by
  refine ⟨rfl, rfl, ?_, rfl, rfl⟩
  exact natCeil_cast_div _ _ hlimit

/-- C3 witness: the pagination relations at a concrete instance
(empty sources, page 1, limit 2). -/
theorem pagination_after_filter_and_sort_witness :
    (1 : ℕ) ≤ 2 ∧
    ((problemsEndpoint false false (Except.ok []) (Except.ok []) none 0.5
        SortKey.confidence 1 2 0).pagination.totalCount =
      (filteredSortedProblems false false (Except.ok []) (Except.ok []) none
        0.5 SortKey.confidence 0).length ∧
    (problemsEndpoint false false (Except.ok []) (Except.ok []) none 0.5
        SortKey.confidence 1 2 0).pagination.totalPages =
      Nat.ceil (((filteredSortedProblems false false (Except.ok [])
        (Except.ok []) none 0.5 SortKey.confidence 0).length : ℚ) / (2 : ℚ)) ∧
    (problemsEndpoint false false (Except.ok []) (Except.ok []) none 0.5
        SortKey.confidence 1 2 0).pagination.totalPages =
      ((filteredSortedProblems false false (Except.ok []) (Except.ok []) none
        0.5 SortKey.confidence 0).length + 2 - 1) / 2 ∧
    (problemsEndpoint false false (Except.ok []) (Except.ok []) none 0.5
        SortKey.confidence 1 2 0).pagination.hasNext =
      decide (1 * 2 <
        (filteredSortedProblems false false (Except.ok []) (Except.ok []) none
          0.5 SortKey.confidence 0).length) ∧
    (problemsEndpoint false false (Except.ok []) (Except.ok []) none 0.5
        SortKey.confidence 1 2 0).problems =
      ((filteredSortedProblems false false (Except.ok []) (Except.ok []) none
        0.5 SortKey.confidence 0).drop ((1 - 1) * 2)).take 2) :=
  ⟨by decide,
   pagination_after_filter_and_sort false false (Except.ok []) (Except.ok [])
     none 0.5 SortKey.confidence 1 2 0 (by decide)⟩

/-- C7 counterexample: the canonical id built for the post with local id
`abc` fetched from reddit is `reddit_abc` (prefix joined with an
underscore), not `reddit:abc` as the claim states. -/
theorem id_separator_counterexample :
    (redditProblems [overlapResponse] (0.5 : ℚ) 0).map (fun item => item.id) =
      [("reddit_abc").data] ∧
    ("reddit_abc").data ≠ ("reddit:abc").data := by
  constructor
  · have hreal : (classifyPost freelancePost).isRealProblem = true := by decide
    have hle : ((0.5 : ℚ) ≤ (classifyPost freelancePost).confidence) := by
      rw [freelance_confidence]; norm_num
    simp only [redditProblems, classifiedPostsOf, allPostsOf, overlapResponse,
      List.flatMap_cons, List.flatMap_nil, List.singleton_append,
      List.append_nil, List.map_cons, List.map_nil, List.filter_cons,
      List.filter_nil, hreal, hle, Bool.true_and, if_true, ite_true,
      redditProblemItem]
    decide
  · decide

/-- C7 amended: every reddit item id is `reddit_` ++ the post's local id,
every stack-exchange item id is `se_` ++ the question id; the two prefixes
differ, so ids stay unique across the two sources. -/
theorem id_source_prefix (responses : List RedditResponse)
    (questions : List StackExchangeQuestion) (minConfidence now : ℚ) :
    (∀ item ∈ redditProblems responses minConfidence now,
      ∃ p ∈ allPostsOf responses, item.id = ("reddit_").data ++ p.id) ∧
    (∀ item ∈ seProblems questions minConfidence now,
      ∃ q ∈ questions,
        item.id = ("se_").data ++ (toString q.question_id).data) ∧
    (∀ a ∈ redditProblems responses minConfidence now,
      ∀ b ∈ seProblems questions minConfidence now, a.id ≠ b.id) := by
  have hr : ∀ item ∈ redditProblems responses minConfidence now,
      ∃ p ∈ allPostsOf responses, item.id = ("reddit_").data ++ p.id := by
    intro item hmem
    simp only [redditProblems] at hmem
    obtain ⟨pc, hpc, rfl⟩ := List.mem_map.mp hmem
    have hpc1 := (List.mem_filter.mp hpc).1
    simp only [classifiedPostsOf] at hpc1
    obtain ⟨p, hp, rfl⟩ := List.mem_map.mp hpc1
    exact ⟨p, hp, rfl⟩
  have hs : ∀ item ∈ seProblems questions minConfidence now,
      ∃ q ∈ questions,
        item.id = ("se_").data ++ (toString q.question_id).data := by
    intro item hmem
    simp only [seProblems] at hmem
    obtain ⟨qc, hqc, rfl⟩ := List.mem_map.mp hmem
    have hqc1 := (List.mem_filter.mp hqc).1
    simp only [classifiedQuestionsOf] at hqc1
    obtain ⟨q, hq, rfl⟩ := List.mem_map.mp hqc1
    exact ⟨q, hq, rfl⟩
  refine ⟨hr, hs, ?_⟩
  intro a ha b hb hEq
  obtain ⟨p, -, hpa⟩ := hr a ha
  obtain ⟨q, -, hqb⟩ := hs b hb
  rw [hpa, hqb] at hEq
  simp at hEq

/-- C8: a source fetch failure is absorbed at the fetch boundary: the
response is always a success page; a failing reddit fetch records an error
diagnostic and contributes exactly what an empty fetch would (the sibling
source is untouched); with every source failing the page is well-formed with
zero items; inside `fetchMultipleStackExchangeSites` a rejected site
contributes no questions, gets a `0` site stat, and leaves the other sites'
questions in place. -/
theorem partial_failure_tolerance (useReddit useSE : Bool)
    (redditFetch : Except Unit (List RedditResponse))
    (seFetch : Except Unit (List StackExchangeQuestion))
    (category : Option Category) (minConfidence : ℚ) (sortBy : SortKey)
    (page limit : ℕ) (now : ℚ)
    (pre post : List (List Char × Except Unit (List StackExchangeQuestion)))
    (name : List Char) :
    (problemsEndpoint useReddit useSE redditFetch seFetch category
      minConfidence sortBy page limit now).success = true ∧
    (problemsEndpoint useReddit useSE (Except.error ()) seFetch category
        minConfidence sortBy page limit now).redditDiag =
      (if useReddit then some SourceDiag.fetchError else none) ∧
    (problemsEndpoint useReddit useSE (Except.error ()) seFetch category
        minConfidence sortBy page limit now).problems =
      (problemsEndpoint useReddit useSE (Except.ok []) seFetch category
        minConfidence sortBy page limit now).problems ∧
    (problemsEndpoint true true (Except.error ()) (Except.error ()) category
      minConfidence sortBy page limit now).problems = [] ∧
    (problemsEndpoint true true (Except.error ()) (Except.error ()) category
        minConfidence sortBy page limit now).pagination.totalCount = 0 ∧
    (fetchMultipleStackExchangeSites (pre ++ (name, Except.error ()) :: post)).1
      = (fetchMultipleStackExchangeSites pre).1 ++
        (fetchMultipleStackExchangeSites post).1 ∧
    (name, 0) ∈
      (fetchMultipleStackExchangeSites (pre ++ (name, Except.error ()) :: post)).2 := by
  have hfs : filteredSortedProblems true true (Except.error ())
      (Except.error ()) category minConfidence sortBy now = [] := by
    cases category <;> rfl
  refine ⟨rfl, ?_, ?_, ?_, ?_, ?_, ?_⟩
  · cases useReddit <;> rfl
  · have hc : redditContribution useReddit (Except.error ()) minConfidence now
        = redditContribution useReddit (Except.ok []) minConfidence now := by
      cases useReddit <;> rfl
    simp only [problemsEndpoint, filteredSortedProblems, hc]
  · simp only [problemsEndpoint, hfs, List.drop_nil, List.take_nil]
  · simp only [problemsEndpoint, hfs, List.length_nil]
  · simp only [fetchMultipleStackExchangeSites, List.flatMap_append,
      List.flatMap_cons, List.nil_append]
  · simp [fetchMultipleStackExchangeSites]

/-- C9: on a cache miss with a successful fetch, `fetchSubredditPosts`
returns the fresh payload whether or not the best-effort cache write
succeeds — a failed write leaves the cache empty but never surfaces as an
error. -/
theorem cacheWrite_best_effort (data : RedditResponse) (cacheWriteOk : Bool) :
    fetchSubredditPosts none (Except.ok data) cacheWriteOk =
      Except.ok (data, if cacheWriteOk then some data else none) ∧
    Except.map Prod.fst (fetchSubredditPosts none (Except.ok data) cacheWriteOk)
      = Except.ok data := by
  cases cacheWriteOk <;> exact ⟨rfl, rfl⟩

/-- C10: `calculateRecencyScore` is never negative; for a creation timestamp
not in the future it is at most 1, and equals 1 exactly for a post created at
the current instant; without that precondition the bound fails: a post dated
one day into the future scores above 1. -/
theorem recencyScore_bounds (now created_utc : ℚ) :
    0 ≤ calculateRecencyScore now created_utc ∧
    (created_utc ≤ now →
      (calculateRecencyScore now created_utc ≤ 1 ∧
        (calculateRecencyScore now created_utc = 1 ↔ created_utc = now))) ∧
    1 < calculateRecencyScore 0 86400 := by
  refine ⟨le_max_left 0 _, fun h => ⟨?_, ?_⟩, ?_⟩
  · simp only [calculateRecencyScore]
    apply max_le (by norm_num)
    have hnn : 0 ≤ (now - created_utc) / (24 * 60 * 60) / 30 := by
      have : 0 ≤ now - created_utc := by linarith
      positivity
    linarith
  · simp only [calculateRecencyScore]
    constructor
    · intro h1
      rcases max_choice 0 (1 - (now - created_utc) / (24 * 60 * 60) / 30)
        with hc | hc
      · rw [hc] at h1
        norm_num at h1
      · rw [hc] at h1
        have ht : (now - created_utc) / (24 * 60 * 60) / 30 = 0 := by
          linarith
        have : now - created_utc = 0 := by
          field_simp at ht
          linarith
        linarith
    · intro h1
      rw [h1]
      simp
  · simp only [calculateRecencyScore]
    norm_num
